import Mathlib

/-!
Verification of `compile_shaders.py`, a command-line driver that, for each
path argument that names an existing regular file, derives an output path by
string substitution and invokes the external compiler `glslc` on the pair.

The script is embedded shallowly:

* `replaceFuel` embeds CPython `str.replace(old, new)` for a nonempty
  pattern: every non-overlapping occurrence of `old`, scanned left to right,
  is replaced by `new`.  The fuel argument (instantiated with the length of
  the scanned list) only makes the recursion structural; all lemmas hold for
  every fuel value because the out-of-fuel branch agrees with the
  corresponding branch of the split/join presentation.
* `compile_shader`, `processPaths` and `runMain` embed the function
  `compile_shader` and the `__main__` block.  The outside world is an
  explicit environment `Env`: the `os.path.isfile` oracle and, for the n-th
  call of `subprocess.run`, the outcome of that call (either the child's
  exit status, or an OS-level startup failure such as `FileNotFoundError`,
  which `subprocess.run` raises and which the script does not catch — its
  `except` clause only handles `subprocess.CalledProcessError`).
* Observable behaviour is a list of `Event`s: `Event.print` for each
  `print(...)` on standard output and `Event.spawn` for each call of
  `subprocess.run`, recording the exact argument vector passed.
* An uncaught exception terminates a Python process with exit status 1;
  `RunResult.uncaught` records the pending exception, and `RunResult.exitCode`
  the resulting process exit status.
-/

set_option autoImplicit false

/-- Outcome of one `subprocess.run` call: either the child process ran and
exited with the given status, or the call failed at startup (e.g. the
binary was not resolvable), raising an `OSError`-family exception. -/
inductive CompilerOutcome where
  | exited (code : Nat)
  | startFailure (msg : String)
deriving DecidableEq

/-- Environment supplying every external fact the script consults:
the `os.path.isfile` test and the outcome of the n-th compiler call. -/
structure Env where
  isfile : String → Bool
  compiler : Nat → CompilerOutcome

/-- Observable event: a line printed to standard output, or a
`subprocess.run` call with its argument vector. -/
inductive Event where
  | print (line : String)
  | spawn (argv : List String)
deriving DecidableEq

/-- Result of one `compile_shader` call: it returned normally, or it is
unwinding with an uncaught exception carrying the given message. -/
inductive StepResult where
  | ok
  | raised (msg : String)
deriving DecidableEq

/-- Replacement engine of CPython `str.replace(old, new)` for a nonempty
`old`: scan left to right; at a position where `old` is a prefix, emit `new`
and resume after the matched occurrence; otherwise keep the character.
Structural in the fuel; the top-level wrapper passes the list's length,
which is always sufficient. -/
def replaceFuel (old new : List Char) : Nat → List Char → List Char
  | _, [] => []
  | 0, l => l
  | fuel + 1, c :: rest =>
    if old ≠ [] ∧ (c :: rest).take old.length = old then
      new ++ replaceFuel old new fuel (rest.drop (old.length - 1))
    else
      c :: replaceFuel old new fuel rest

/-- CPython `s.replace(old, new)` (all occurrences, left to right,
non-overlapping), for a nonempty `old` as used on line 6 of the script. -/
def pyReplace (s old new : String) : String :=
  String.mk (replaceFuel old.data new.data s.data.length s.data)

/-- Line 6 of `compile_shaders.py`:
`output_path = shader_path.replace('shaders', 'bin') + ".spv"`. -/
def output_path (shader_path : String) : String :=
  pyReplace shader_path "shaders" "bin" ++ ".spv"

/-- A single-quote character, written via its code point. -/
def squote : String := String.mk [Char.ofNat 39]

/-- CPython `repr` of a string containing no quotes, backslashes or control
characters: the text between single quotes. -/
def pyStrRepr (s : String) : String := squote ++ s ++ squote

/-- CPython `repr` of a list of such strings. -/
def pyListRepr (xs : List String) : String :=
  "[" ++ String.intercalate ", " (xs.map pyStrRepr) ++ "]"

/-- CPython `str(subprocess.CalledProcessError(returncode, cmd))` for a
positive return code. -/
def calledProcessErrorStr (cmd : List String) (returncode : Nat) : String :=
  "Command " ++ squote ++ pyListRepr cmd ++ squote ++
    " returned non-zero exit status " ++ toString returncode ++ "."

/-- Lines 5-14 of `compile_shaders.py`: derive the output path, build the
`glslc` command, run it with `check=True`, print the success line on exit
status 0, print the `CalledProcessError` line on a non-zero status, and let
a startup failure of `subprocess.run` escape uncaught (the `except` clause
only matches `subprocess.CalledProcessError`).  `n` is the index of this
`subprocess.run` call in the run, used to look up its outcome in `env`. -/
def compile_shader (env : Env) (n : Nat) (shader_path : String) :
    List Event × StepResult :=
  let out := output_path shader_path
  let command := ["glslc", shader_path, "-o", out]
  match env.compiler n with
  | CompilerOutcome.exited 0 =>
      ([Event.spawn command,
        Event.print ("Compiled " ++ shader_path ++ " to " ++ out)],
       StepResult.ok)
  | CompilerOutcome.exited (k + 1) =>
      ([Event.spawn command,
        Event.print ("Error compiling " ++ shader_path ++ ": " ++
          calledProcessErrorStr command (k + 1))],
       StepResult.ok)
  | CompilerOutcome.startFailure msg =>
      ([Event.spawn command], StepResult.raised msg)

/-- Lines 21-25 of `compile_shaders.py`: the `for shader in sys.argv[1:]`
loop.  For each path, check `os.path.isfile`; if it exists call
`compile_shader`, else print the not-found line.  The second component is
`some msg` when an uncaught exception aborted the loop.  `n` counts the
`subprocess.run` calls made so far. -/
def processPaths (env : Env) : List String → Nat → List Event × Option String
  | [], _ => ([], none)
  | p :: rest, n =>
    if env.isfile p then
      match compile_shader env n p with
      | (evs, StepResult.ok) =>
          (evs ++ (processPaths env rest (n + 1)).1,
           (processPaths env rest (n + 1)).2)
      | (evs, StepResult.raised msg) => (evs, some msg)
    else
      (Event.print ("File not found: " ++ p) :: (processPaths env rest n).1,
       (processPaths env rest n).2)

/-- The usage line printed on line 18 of the script. -/
def usageMessage : String := "Usage: compile_shaders.py <shader1> <shader2> ..."

/-- Outcome of one whole run of the script. -/
structure RunResult where
  events : List Event
  exitCode : Nat
  uncaught : Option String
deriving DecidableEq

/-- Lines 16-25 of `compile_shaders.py`: `args` is `sys.argv[1:]`.  With no
path arguments the script prints the usage line and calls `sys.exit(1)`;
otherwise it runs the loop, and the process exits with status 0 unless an
uncaught exception escaped, in which case Python terminates the process
with status 1. -/
def runMain (env : Env) (args : List String) : RunResult :=
  match args with
  | [] => { events := [Event.print usageMessage], exitCode := 1, uncaught := none }
  | p :: rest =>
      { events := (processPaths env (p :: rest) 0).1,
        exitCode :=
          match (processPaths env (p :: rest) 0).2 with
          | none => 0
          | some _ => 1,
        uncaught := (processPaths env (p :: rest) 0).2 }

/-- Argument vectors of the `subprocess.run` calls in an event list. -/
def spawnArgvs : List Event → List (List String)
  | [] => []
  | Event.spawn argv :: rest => argv :: spawnArgvs rest
  | Event.print _ :: rest => spawnArgvs rest

/-- Decides whether `old` occurs as a contiguous sublist of `l`. -/
def occursIn (old : List Char) : List Char → Bool
  | [] => decide (old = [])
  | c :: rest => decide ((c :: rest).take old.length = old) || occursIn old rest

/-- Modelled from the claim under examination: replace only the FIRST
occurrence of `old`, leaving every later occurrence unchanged (for a
nonempty `old`; fuel as in `replaceFuel`). -/
def replaceFirstFuel (old new : List Char) : Nat → List Char → List Char
  | _, [] => []
  | 0, l => l
  | fuel + 1, c :: rest =>
    if old ≠ [] ∧ (c :: rest).take old.length = old then
      new ++ rest.drop (old.length - 1)
    else
      c :: replaceFirstFuel old new fuel rest

/-- Modelled from the claim under examination: first-occurrence-only
replacement at the string level. -/
def replaceFirst (s old new : String) : String :=
  String.mk (replaceFirstFuel old.data new.data s.data.length s.data)

/-- Modelled from the amended specification wording: split the string on
the non-overlapping left-to-right occurrences of `sep`, yielding the pieces
between occurrences. -/
def splitFuel (sep : List Char) : Nat → List Char → List (List Char)
  | _, [] => [[]]
  | 0, l => [l]
  | fuel + 1, c :: rest =>
    if sep ≠ [] ∧ (c :: rest).take sep.length = sep then
      [] :: splitFuel sep fuel (rest.drop (sep.length - 1))
    else
      match splitFuel sep fuel rest with
      | [] => [[c]]
      | p :: ps => (c :: p) :: ps

/-- Join pieces with a glue word between consecutive pieces. -/
def joinWith (glue : List Char) : List (List Char) → List Char
  | [] => []
  | [p] => p
  | p :: ps => p ++ glue ++ joinWith glue ps

/-- Modelled from the amended specification wording: replace every
non-overlapping occurrence of `old` by `new` by splitting on the
occurrences and joining the pieces with `new`. -/
def splitJoinReplace (s old new : String) : String :=
  String.mk (joinWith new.data (splitFuel old.data s.data.length s.data))

/-- Environment in which every path exists and the compiler binary cannot
be started: every `subprocess.run` call raises a startup error. -/
def envSF : Env :=
  { isfile := fun _ => true,
    compiler := fun _ => CompilerOutcome.startFailure "No such file or directory" }

/-- Environment in which every path exists and every compiler invocation
runs but exits with status 1. -/
def envFail : Env :=
  { isfile := fun _ => true,
    compiler := fun _ => CompilerOutcome.exited 1 }

/-- Environment in which no path exists. -/
def envNone : Env :=
  { isfile := fun _ => false,
    compiler := fun _ => CompilerOutcome.exited 0 }

/-- A split always yields at least one piece. -/
theorem splitFuel_ne_nil (sep : List Char) (fuel : Nat) (l : List Char) :
    splitFuel sep fuel l ≠ [] := by
  cases fuel with
  | zero => cases l <;> simp [splitFuel]
  | succ f =>
    cases l with
    | nil => simp [splitFuel]
    | cons c rest =>
      simp only [splitFuel]
      split
      · simp
      · split <;> simp

/-- Pushing a character onto the first piece pushes it onto the joined list. -/
theorem joinWith_cons_cons (glue : List Char) (c : Char) (p : List Char)
    (ps : List (List Char)) :
    joinWith glue ((c :: p) :: ps) = c :: joinWith glue (p :: ps) := by
  cases ps <;> simp [joinWith]

/-- The replacement engine agrees with splitting on the occurrences and
joining the pieces with the replacement word, for every fuel value. -/
theorem replaceFuel_eq_joinWith_splitFuel (old new : List Char) (fuel : Nat)
    (l : List Char) :
    replaceFuel old new fuel l = joinWith new (splitFuel old fuel l) := by
  induction fuel generalizing l with
  | zero => cases l <;> simp [replaceFuel, splitFuel, joinWith]
  | succ f ih =>
    cases l with
    | nil => simp [replaceFuel, splitFuel, joinWith]
    | cons c rest =>
      simp only [replaceFuel, splitFuel]
      split
      · obtain ⟨p, ps, hps⟩ :=
          List.exists_cons_of_ne_nil
            (splitFuel_ne_nil old f (rest.drop (old.length - 1)))
        rw [ih, hps]
        simp [joinWith]
      · obtain ⟨p, ps, hps⟩ := List.exists_cons_of_ne_nil (splitFuel_ne_nil old f rest)
        rw [ih, hps, joinWith_cons_cons]

/-- On a list with no occurrence of the pattern, replacement is the
identity, for every fuel value. -/
theorem replaceFuel_of_not_occursIn (old new : List Char) (fuel : Nat)
    (l : List Char) (h : occursIn old l = false) :
    replaceFuel old new fuel l = l := by
  induction fuel generalizing l with
  | zero => cases l <;> simp [replaceFuel]
  | succ f ih =>
    cases l with
    | nil => simp [replaceFuel]
    | cons c rest =>
      simp only [occursIn, Bool.or_eq_false_iff, decide_eq_false_iff_not] at h
      simp only [replaceFuel]
      rw [if_neg, ih rest h.2]
      intro hc
      exact h.1 hc.2

/-- Spawn-argument extraction distributes over list append. -/
theorem spawnArgvs_append (a b : List Event) :
    spawnArgvs (a ++ b) = spawnArgvs a ++ spawnArgvs b := by
  induction a with
  | nil => simp [spawnArgvs]
  | cons e rest ih => cases e <;> simp [spawnArgvs, ih]

/-- When the n-th compiler call runs to an exit status, `compile_shader`
returns normally and its events contain exactly one `subprocess.run` call,
carrying the glslc argument vector for that path. -/
theorem compile_shader_exited (env : Env) (n : Nat) (p : String) (k : Nat)
    (hk : env.compiler n = CompilerOutcome.exited k) :
    (compile_shader env n p).2 = StepResult.ok ∧
    spawnArgvs (compile_shader env n p).1 = [["glslc", p, "-o", output_path p]] := by
  cases k <;> simp [compile_shader, hk, spawnArgvs]

/-- When every compiler call runs to an exit status, the loop never aborts
and performs one `subprocess.run` per existing path, in input order, with
the glslc argument vector for that path. -/
theorem processPaths_all_exited (env : Env)
    (hall : ∀ n, ∃ k, env.compiler n = CompilerOutcome.exited k)
    (paths : List String) :
    ∀ n : Nat,
      (processPaths env paths n).2 = none ∧
      spawnArgvs (processPaths env paths n).1 =
        (paths.filter (fun p => env.isfile p)).map
          (fun p => ["glslc", p, "-o", output_path p]) := by
  induction paths with
  | nil => intro n; simp [processPaths, spawnArgvs]
  | cons p rest ih =>
    intro n
    cases hf : env.isfile p with
    | false =>
      have hrest := ih n
      simp [processPaths, hf, spawnArgvs, hrest.1, hrest.2]
    | true =>
      obtain ⟨k, hk⟩ := hall n
      have hcs := compile_shader_exited env n p k hk
      rcases hc : compile_shader env n p with ⟨evs, st⟩
      rw [hc] at hcs
      obtain ⟨hok, hsp⟩ := hcs
      simp only at hok hsp
      subst hok
      have hrest := ih (n + 1)
      constructor
      · simp [processPaths, hf, hc, hrest.1]
      · simp [processPaths, hf, hc, spawnArgvs_append, hsp, hrest.2]

/-- C1 (counterexample): on the input "shaders/shaders/a.vert" the script
replaces BOTH occurrences of "shaders" — CPython str.replace with no count
replaces every occurrence — so the derived output path differs from the
claimed first-occurrence-only transformation. -/
theorem c1_counterexample :
    output_path "shaders/shaders/a.vert" = "bin/bin/a.vert.spv" ∧
    replaceFirst "shaders/shaders/a.vert" "shaders" "bin" ++ ".spv" =
      "bin/shaders/a.vert.spv" ∧
    output_path "shaders/shaders/a.vert" ≠
      replaceFirst "shaders/shaders/a.vert" "shaders" "bin" ++ ".spv" := by
  decide

/-- C1 (amended): for every input path string, the derived output path
equals the input path with EVERY non-overlapping occurrence of "shaders",
scanned left to right, replaced by "bin" — split on the occurrences, join
with "bin" — followed by the appended suffix ".spv". -/
theorem c1_replace_all (s : String) :
    output_path s = splitJoinReplace s "shaders" "bin" ++ ".spv" := by
  unfold output_path pyReplace splitJoinReplace
  rw [replaceFuel_eq_joinWith_splitFuel]

/-- C2 (counterexample): with every path existing and the compiler binary
unable to start, the run on ["shaders/a.vert", "shaders/b.vert"] prints no
error notice and never reaches the second path: the only event is the
failed subprocess.run call for the first path, and the exception escapes
uncaught. -/
theorem c2_counterexample :
    (runMain envSF ["shaders/a.vert", "shaders/b.vert"]).events =
      [Event.spawn ["glslc", "shaders/a.vert", "-o", "bin/a.vert.spv"]] ∧
    (runMain envSF ["shaders/a.vert", "shaders/b.vert"]).uncaught =
      some "No such file or directory" := by
  decide

/-- C2 (amended): when the compiler invocation for an existing path runs
and returns a non-zero exit status, the driver prints the error notice
carrying the CalledProcessError detail and continues with the remaining
paths exactly as it otherwise would; a startup failure, by contrast,
escapes uncaught (see the counterexample). -/
theorem c2_nonzero_exit_continues (env : Env) (n k : Nat) (p : String)
    (rest : List String) (hf : env.isfile p = true)
    (hk : env.compiler n = CompilerOutcome.exited (k + 1)) :
    processPaths env (p :: rest) n =
      (Event.spawn ["glslc", p, "-o", output_path p] ::
        Event.print ("Error compiling " ++ p ++ ": " ++
          calledProcessErrorStr ["glslc", p, "-o", output_path p] (k + 1)) ::
        (processPaths env rest (n + 1)).1,
       (processPaths env rest (n + 1)).2) := by
  simp [processPaths, hf, compile_shader, hk]

/-- C2 (witness): the amended statement at the concrete environment in
which every path exists and every invocation exits with status 1. -/
theorem c2_nonzero_exit_continues_witness :
    envFail.isfile "shaders/a.vert" = true ∧
    envFail.compiler 0 = CompilerOutcome.exited (0 + 1) ∧
    processPaths envFail ["shaders/a.vert", "shaders/b.vert"] 0 =
      (Event.spawn ["glslc", "shaders/a.vert", "-o", output_path "shaders/a.vert"] ::
        Event.print ("Error compiling " ++ "shaders/a.vert" ++ ": " ++
          calledProcessErrorStr
            ["glslc", "shaders/a.vert", "-o", output_path "shaders/a.vert"]
            (0 + 1)) ::
        (processPaths envFail ["shaders/b.vert"] (0 + 1)).1,
       (processPaths envFail ["shaders/b.vert"] (0 + 1)).2) :=
  ⟨rfl, rfl,
    c2_nonzero_exit_continues envFail 0 0 "shaders/a.vert" ["shaders/b.vert"]
      rfl rfl⟩

/-- C3: with zero path arguments the driver prints the usage line, exits
with status 1, and performs no subprocess.run call at all. -/
theorem c3_usage_exit (env : Env) :
    runMain env [] =
      { events := [Event.print usageMessage], exitCode := 1, uncaught := none } ∧
    spawnArgvs (runMain env []).events = [] :=
  ⟨rfl, rfl⟩

/-- C4: for a path that is not an existing regular file, the loop prints
the File-not-found line naming the exact path, performs no subprocess.run
call for it, and continues with the remaining paths exactly as it
otherwise would. -/
theorem c4_missing_file_skip (env : Env) (p : String) (rest : List String)
    (n : Nat) (hf : env.isfile p = false) :
    processPaths env (p :: rest) n =
      (Event.print ("File not found: " ++ p) :: (processPaths env rest n).1,
       (processPaths env rest n).2) := by
  simp [processPaths, hf]

/-- C4 (witness): the statement at the concrete environment in which no
path exists. -/
theorem c4_missing_file_skip_witness :
    envNone.isfile "shaders/missing.vert" = false ∧
    processPaths envNone ["shaders/missing.vert"] 0 =
      (Event.print ("File not found: " ++ "shaders/missing.vert") ::
        (processPaths envNone [] 0).1,
       (processPaths envNone [] 0).2) :=
  ⟨rfl, c4_missing_file_skip envNone "shaders/missing.vert" [] 0 rfl⟩

/-- C5: for a path not containing the substring "shaders", the substitution
is a no-op: the derived output path is the input path plus ".spv", and the
compiler invocation proceeds unchanged with exactly that output path. -/
theorem c5_no_shaders_noop (env : Env) (n : Nat) (s : String)
    (h : occursIn ("shaders".data) s.data = false) :
    output_path s = s ++ ".spv" ∧
    spawnArgvs (compile_shader env n s).1 = [["glslc", s, "-o", s ++ ".spv"]] := by
  have h1 : output_path s = s ++ ".spv" := by
    unfold output_path pyReplace
    rw [replaceFuel_of_not_occursIn _ _ _ _ h]
  refine ⟨h1, ?_⟩
  cases hk : env.compiler n with
  | exited code => cases code <;> simp [compile_shader, hk, spawnArgvs, h1]
  | startFailure msg => simp [compile_shader, hk, spawnArgvs, h1]

/-- C5 (witness): the statement at the concrete path "a.vert". -/
theorem c5_no_shaders_noop_witness :
    occursIn ("shaders".data) ("a.vert".data) = false ∧
    (output_path "a.vert" = "a.vert" ++ ".spv" ∧
      spawnArgvs (compile_shader envFail 0 "a.vert").1 =
        [["glslc", "a.vert", "-o", "a.vert" ++ ".spv"]]) :=
  ⟨by decide, c5_no_shaders_noop envFail 0 "a.vert" (by decide)⟩

/-- C6 (counterexample): with one path argument, the path existing, and the
compiler binary unable to start, the process exit status is 1, not 0. -/
theorem c6_counterexample :
    (["shaders/a.vert"] : List String) ≠ [] ∧
    (runMain envSF ["shaders/a.vert"]).exitCode ≠ 0 := by
  decide

/-- C6 (amended): whenever at least one path argument is supplied and every
compiler invocation starts (each returns some exit status), the process
exit status is 0, regardless of how many invocations returned non-zero. -/
theorem c6_exit_zero (env : Env) (args : List String) (hne : args ≠ [])
    (hall : ∀ n, ∃ k, env.compiler n = CompilerOutcome.exited k) :
    (runMain env args).exitCode = 0 := by
  cases args with
  | nil => exact absurd rfl hne
  | cons p rest =>
    have h := (processPaths_all_exited env hall (p :: rest) 0).1
    simp [runMain, h]

/-- C6 (witness): the amended statement at the concrete environment in
which every path exists and every invocation exits with status 1. -/
theorem c6_exit_zero_witness :
    (["shaders/a.vert"] : List String) ≠ [] ∧
    (runMain envFail ["shaders/a.vert"]).exitCode = 0 :=
  ⟨by decide,
    c6_exit_zero envFail ["shaders/a.vert"] (by decide) (fun _ => ⟨1, rfl⟩)⟩

/-- C7 (counterexample): with two existing paths and the compiler binary
unable to start, the second path — although it exists — is never the
subject of any subprocess.run call: the run performs exactly one call,
for the first path. -/
theorem c7_counterexample :
    envSF.isfile "shaders/b.vert" = true ∧
    spawnArgvs (runMain envSF ["shaders/a.vert", "shaders/b.vert"]).events =
      [["glslc", "shaders/a.vert", "-o", "bin/a.vert.spv"]] := by
  decide

/-- C7 (amended): provided every compiler invocation starts (each returns
some exit status), the run performs exactly one subprocess.run call per
existing input path, in input order, with the argument vector
["glslc", path, "-o", output_path path]; the loop is strictly sequential,
each call completing before the next path is handled. -/
theorem c7_spawn_per_existing (env : Env) (args : List String)
    (hall : ∀ n, ∃ k, env.compiler n = CompilerOutcome.exited k) :
    spawnArgvs (runMain env args).events =
      (args.filter (fun p => env.isfile p)).map
        (fun p => ["glslc", p, "-o", output_path p]) := by
  cases args with
  | nil => simp [runMain, spawnArgvs]
  | cons p rest =>
    simpa [runMain] using (processPaths_all_exited env hall (p :: rest) 0).2

/-- C7 (witness): the amended statement with one existing and one missing
path, in the environment in which every invocation exits with status 1. -/
theorem c7_spawn_per_existing_witness :
    spawnArgvs (runMain envFail ["shaders/a.vert", "nope.vert"]).events =
      ((["shaders/a.vert", "nope.vert"] : List String).filter
        (fun p => envFail.isfile p)).map
        (fun p => ["glslc", p, "-o", output_path p]) :=
  c7_spawn_per_existing envFail ["shaders/a.vert", "nope.vert"]
    (fun _ => ⟨1, rfl⟩)

/-- C8: the spawned command — and with it the derived output path — is a
pure, deterministic function of the input path string alone: it is the same
under any two environments (any filesystem state, any compiler behaviour)
and any two invocation indices, and always equals
["glslc", p, "-o", output_path p]. -/
theorem c8_output_path_pure (env₁ env₂ : Env) (n₁ n₂ : Nat) (p : String) :
    spawnArgvs (compile_shader env₁ n₁ p).1 =
      [["glslc", p, "-o", output_path p]] ∧
    spawnArgvs (compile_shader env₁ n₁ p).1 =
      spawnArgvs (compile_shader env₂ n₂ p).1 := by
  have h : ∀ (env : Env) (n : Nat),
      spawnArgvs (compile_shader env n p).1 =
        [["glslc", p, "-o", output_path p]] := by
    intro env n
    cases hk : env.compiler n with
    | exited code => cases code <;> simp [compile_shader, hk, spawnArgvs]
    | startFailure msg => simp [compile_shader, hk, spawnArgvs]
  exact ⟨h env₁ n₁, (h env₁ n₁).trans (h env₂ n₂).symm⟩

/-- C9: the substitution is plain substring replacement with no awareness
of path separators or segment boundaries: "shaders" occurring inside the
larger path component "myshadersdir" is still replaced, giving
"mybindir/a.vert.spv". -/
theorem c9_substring_replacement :
    output_path "myshadersdir/a.vert" = "mybindir/a.vert.spv" := by
  decide

/-- C10: when the first compiler invocation of the run is for an existing
path and fails at startup, the exception is not caught: the only event of
the run is that subprocess.run call, the remaining paths are not processed,
the exception escapes, and the process exit status is 1 (non-zero). -/
theorem c10_startup_error_uncaught (env : Env) (p : String)
    (rest : List String) (msg : String) (hf : env.isfile p = true)
    (h0 : env.compiler 0 = CompilerOutcome.startFailure msg) :
    (runMain env (p :: rest)).events =
      [Event.spawn ["glslc", p, "-o", output_path p]] ∧
    (runMain env (p :: rest)).uncaught = some msg ∧
    (runMain env (p :: rest)).exitCode = 1 := by
  simp [runMain, processPaths, hf, compile_shader, h0]

/-- C10 (witness): the statement at the concrete environment in which every
path exists and no invocation can start. -/
theorem c10_startup_error_uncaught_witness :
    envSF.isfile "shaders/a.vert" = true ∧
    envSF.compiler 0 = CompilerOutcome.startFailure "No such file or directory" ∧
    ((runMain envSF ["shaders/a.vert", "shaders/b.vert"]).events =
        [Event.spawn ["glslc", "shaders/a.vert", "-o",
          output_path "shaders/a.vert"]] ∧
      (runMain envSF ["shaders/a.vert", "shaders/b.vert"]).uncaught =
        some "No such file or directory" ∧
      (runMain envSF ["shaders/a.vert", "shaders/b.vert"]).exitCode = 1) :=
  ⟨rfl, rfl,
    c10_startup_error_uncaught envSF "shaders/a.vert" ["shaders/b.vert"]
      "No such file or directory" rfl rfl⟩
